import Mathlib

/-!
Verification development for the DMV fee-calculator scraper
(`core.py`, `parser.py`, `run_scrapper.py`).

The source is shallowly embedded: HTML documents are modelled as a tree of
tags and text nodes (BeautifulSoup parsing itself is outside the embedding;
functions receive the parsed tree), Python dicts are modelled as
insertion-ordered association lists with assignment semantics, and the
orchestration in `run_scrape` is modelled as a pure function from an
environment describing the outcomes of the external effects (HTTP GET/POST
results, anti-captcha solver results, measured wall-clock time) to a final
outcome together with an observation trace (artifacts written, number of
solver invocations, the submitted body, ...).

All definitions are computable and kernel-reducible so that concrete
scenarios evaluate by `decide`.
-/

/-! ### String utilities

Kernel-computable counterparts of the Python string operations used by the
source (`in`, `.lower()`, `.strip()`, `.split(sep)`).  They operate on the
underlying character list.  `Char.toLower` handles ASCII, which covers every
marker string the source compares against.
-/

/-- Python `needle in hay` (substring containment). -/
def strContains (hay needle : String) : Bool :=
  go needle.data hay.data
where
  go (n : List Char) : List Char → Bool
    | [] => n.isEmpty
    | c :: t => n.isPrefixOf (c :: t) || go n t

/-- Python `s.lower()` (ASCII case folding). -/
def lowerStr (s : String) : String := ⟨s.data.map Char.toLower⟩

/-- Whitespace test used by Python `str.strip()` for the characters that
occur in this scraper's documents. -/
def isWs (c : Char) : Bool := c == ' ' || c == '\t' || c == '\n' || c == '\r'

/-- Python `s.strip()`. -/
def trimStr (s : String) : String :=
  ⟨((s.data.dropWhile isWs).reverse.dropWhile isWs).reverse⟩

/-- Auxiliary accumulator for `splitChar`. -/
def splitCharAux (sep : Char) (cur : List Char) : List Char → List (List Char)
  | [] => [cur.reverse]
  | c :: t => if c == sep then cur.reverse :: splitCharAux sep [] t
              else splitCharAux sep (c :: cur) t

/-- Python `s.split(sep)` for a one-character separator (the source only
splits on `"?"`, `"&"` and `"="`). -/
def splitChar (sep : Char) (s : String) : List String :=
  (splitCharAux sep [] s.data).map (fun l => ⟨l⟩)

/-- Python `sep.join(parts)` for a one-character separator. -/
def interStr (sep : String) : List String → String
  | [] => ""
  | [x] => x
  | x :: y :: t => x ++ sep ++ interStr sep (y :: t)

/-- Concatenation of a list of strings (BeautifulSoup `get_text` joins with
the empty separator). -/
def joinStr (l : List String) : String := l.foldl (fun a b => a ++ b) ""

/-! ### Python dict model

Python dicts are insertion ordered; assignment `d[k] = v` overwrites the
value in place when the key exists and appends otherwise.  `{**a, **b}` is
`a` followed by assigning every binding of `b` in order.
-/

/-- Lookup in an association list (first binding wins; after `pyInsert` keys
are unique, so this is dict lookup). -/
def pyLookup (k : String) : List (String × String) → Option String
  | [] => none
  | (k2, v) :: t => if k2 = k then some v else pyLookup k t

/-- Python dict assignment `d[k] = v`. -/
def pyInsert (m : List (String × String)) (k v : String) : List (String × String) :=
  match m with
  | [] => [(k, v)]
  | (k2, v2) :: t => if k2 = k then (k, v) :: t else (k2, v2) :: pyInsert t k v

/-- Assign every binding of `l` (in order) into `m`; models `{**m, **l}`
and also the dict-building loops of the source. -/
def pyAssignAll (m : List (String × String)) (l : List (String × String)) :
    List (String × String) :=
  l.foldl (fun acc p => pyInsert acc p.1 p.2) m

/-- Value of the last binding of `k` in `l` (the binding that survives when
the bindings are assigned into a dict in order). -/
def lookupLast (k : String) : List (String × String) → Option String
  | [] => none
  | (k2, v) :: t =>
    match lookupLast k t with
    | some v2 => some v2
    | none => if k2 = k then some v else none

theorem pyLookup_pyInsert (m : List (String × String)) (k k2 v : String) :
    pyLookup k (pyInsert m k2 v) = if k2 = k then some v else pyLookup k m := by
  induction m with
  | nil => simp [pyInsert, pyLookup]
  | cons hd t ih =>
    obtain ⟨a, b⟩ := hd
    by_cases hak : a = k2
    · subst hak
      simp only [pyInsert, if_pos rfl, pyLookup]
      by_cases hk : a = k <;> simp [hk]
    · simp only [pyInsert, if_neg hak, pyLookup]
      by_cases hk : a = k
      · subst hk
        have : ¬ k2 = a := fun h => hak h.symm
        simp [this]
      · simp [hk, ih]

theorem pyLookup_pyAssignAll (l : List (String × String))
    (m : List (String × String)) (k : String) :
    pyLookup k (pyAssignAll m l) =
      match lookupLast k l with
      | some v => some v
      | none => pyLookup k m := by
  induction l generalizing m with
  | nil => simp [pyAssignAll, lookupLast]
  | cons hd t ih =>
    obtain ⟨a, b⟩ := hd
    simp only [pyAssignAll, List.foldl_cons] at *
    rw [ih (pyInsert m a b)]
    simp only [lookupLast]
    cases lookupLast k t with
    | some v2 => simp
    | none =>
      simp only [pyLookup_pyInsert]
      by_cases hk : a = k <;> simp [hk]

theorem lookupLast_isSome_iff (k : String) (l : List (String × String)) :
    (lookupLast k l).isSome = true ↔ k ∈ l.map Prod.fst := by
  induction l with
  | nil => simp [lookupLast]
  | cons hd t ih =>
    obtain ⟨a, b⟩ := hd
    simp only [lookupLast, List.map_cons, List.mem_cons]
    cases h : lookupLast k t with
    | some v2 =>
      simp only [Option.isSome_some, true_iff]
      right
      rw [← ih]
      simp [h]
    | none =>
      rw [h] at ih
      simp only [Option.isSome_none, Bool.false_eq_true, false_iff] at ih
      by_cases hk : a = k
      · simp [hk]
      · simp only [if_neg hk, Option.isSome_none, Bool.false_eq_true, false_iff]
        intro hc
        rcases hc with hc | hc
        · exact hk hc.symm
        · exact ih hc

theorem lookupLast_mem (k v : String) (l : List (String × String)) :
    lookupLast k l = some v → (k, v) ∈ l := by
  induction l with
  | nil => simp [lookupLast]
  | cons hd t ih =>
    obtain ⟨a, b⟩ := hd
    simp only [lookupLast]
    cases h : lookupLast k t with
    | some v2 =>
      intro he
      injection he with he
      subst he
      exact List.mem_cons_of_mem _ (ih h)
    | none =>
      by_cases hk : a = k
      · subst hk
        simp only [if_pos rfl]
        intro he
        injection he with he
        subst he
        exact List.mem_cons_self _ _
      · simp [hk]

/-! ### HTML document model

A parsed document is a tree of element tags and text nodes.  BeautifulSoup
parsing itself is external to the embedding: every source function that
takes raw HTML and immediately parses it is embedded as a function on the
parsed tree.  A whole document is represented by its root object, and
document-level searches walk the root's subtrees (BeautifulSoup searches
descendants of the soup object).
-/

inductive Html where
  | text (s : String)
  | tag (name : String) (attrs : List (String × String)) (children : List Html)

/-- BeautifulSoup `tag.get(k)`: first binding of attribute `k`. -/
def attrGet (attrs : List (String × String)) (k : String) : Option String :=
  match attrs.find? (fun p => p.1 == k) with
  | some p => some p.2
  | none => none

/-- BeautifulSoup `tag.get(k, dflt)`. -/
def attrGetD (attrs : List (String × String)) (k dflt : String) : String :=
  (attrGet attrs k).getD dflt

/-- Split on whitespace, as BeautifulSoup does for the multi-valued
`class` attribute. -/
def splitWsAux (cur : List Char) : List Char → List (List Char)
  | [] => [cur.reverse]
  | c :: t => if isWs c then cur.reverse :: splitWsAux [] t else splitWsAux (c :: cur) t

/-- Whether the `class` attribute, viewed as a whitespace-separated list,
contains class `c` (BeautifulSoup matches a string filter on `class`
against any one of the element's classes). -/
def classHas (attrs : List (String × String)) (c : String) : Bool :=
  ((splitWsAux [] (attrGetD attrs "class" "").data).map (fun l => (⟨l⟩ : String))).contains c

mutual
/-- Stripped descendant strings of a node in document order, dropping the
ones that strip to empty (BeautifulSoup `_all_strings(strip=True)`). -/
def textPieces : Html → List String
  | .text s => let s2 := trimStr s; if s2 == "" then [] else [s2]
  | .tag _ _ cs => textPiecesL cs

/-- `textPieces` over a list of siblings. -/
def textPiecesL : List Html → List String
  | [] => []
  | h :: t => textPieces h ++ textPiecesL t
end

/-- BeautifulSoup `get_text(strip=True)`: stripped descendant strings joined
with the empty separator. -/
def getTextStrip : Html → String
  | .text s => trimStr s
  | .tag _ _ cs => joinStr (textPiecesL cs)

mutual
/-- All elements of the subtree rooted at a node (the node included)
matching `p`, in document (preorder) order. -/
def findAllP (p : String → List (String × String) → Bool) : Html → List Html
  | .text _ => []
  | .tag nm a cs => (if p nm a then [Html.tag nm a cs] else []) ++ findAllPL p cs

/-- `findAllP` over a list of siblings. -/
def findAllPL (p : String → List (String × String) → Bool) : List Html → List Html
  | [] => []
  | h :: t => findAllP p h ++ findAllPL p t
end

mutual
/-- First element (preorder) of the subtree rooted at a node (the node
included) matching `p`. -/
def findFirstP (p : String → List (String × String) → Bool) : Html → Option Html
  | .text _ => none
  | .tag nm a cs => if p nm a then some (Html.tag nm a cs) else findFirstPL p cs

/-- `findFirstP` over a list of siblings. -/
def findFirstPL (p : String → List (String × String) → Bool) : List Html → Option Html
  | [] => none
  | h :: t =>
    match findFirstP p h with
    | some r => some r
    | none => findFirstPL p t
end

/-- Child nodes of an element. -/
def childrenOf : Html → List Html
  | .text _ => []
  | .tag _ _ cs => cs

/-- BeautifulSoup `element.find_all(...)`: matching descendants of the
element, the element itself excluded. -/
def descendantsP (p : String → List (String × String) → Bool) (h : Html) : List Html :=
  findAllPL p (childrenOf h)

/-- Document-level `soup.find_all(...)`. -/
def docFindAll (p : String → List (String × String) → Bool) (doc : Html) : List Html :=
  descendantsP p doc

/-- Document-level `soup.find(...)`. -/
def docFindFirst (p : String → List (String × String) → Bool) (doc : Html) : Option Html :=
  findFirstPL p (childrenOf doc)

/-- Name filter `soup.find_all(n)`. -/
def tagNamed (n : String) : String → List (String × String) → Bool :=
  fun nm _ => nm == n

/-! ### parser.py -/

mutual
/-- Embedding of the legend loop of `_extract_summary` (parser.py):
walking the document in preorder, find the first `legend` whose stripped
text is exactly `"Fees"`; the answer is `none` while no such legend exists,
and `some a` once it is found, where `a` is the legend's innermost
`fieldset` ancestor (`legend.find_parent("fieldset")`), or `none` when the
legend sits outside every fieldset.  `anc` carries the `fieldset` ancestors
of the current node, innermost first. -/
def feesSearch (anc : List Html) : Html → Option (Option Html)
  | .text _ => none
  | .tag nm a cs =>
    if nm == "legend" && getTextStrip (Html.tag nm a cs) == "Fees" then
      some anc.head?
    else
      feesSearchL (if nm == "fieldset" then Html.tag nm a cs :: anc else anc) cs

/-- `feesSearch` over a list of siblings. -/
def feesSearchL (anc : List Html) : List Html → Option (Option Html)
  | [] => none
  | h :: t =>
    match feesSearch anc h with
    | some r => some r
    | none => feesSearchL anc t
end

/-- The fieldset used by `_extract_summary` for a document. -/
def feesFieldsetOf (doc : Html) : Option (Option Html) :=
  feesSearchL [] (childrenOf doc)

/-- Embedding of the pairing loop of `_extract_summary`: one record per
`dt` tag, taking the positionally matching `dd` text, or the empty string
when the `dd` list is exhausted (`dd_tags[i] if i < len(dd_tags) else ""`). -/
def pairUp : List Html → List Html → List (String × String)
  | [], _ => []
  | dt :: dts, [] => (getTextStrip dt, "") :: pairUp dts []
  | dt :: dts, dd :: dds => (getTextStrip dt, getTextStrip dd) :: pairUp dts dds

/-- `_extract_summary` (parser.py): records are `(Item, Fee)` pairs;
`none` models the Python `return None` paths (no `Fees` legend, or the
legend has no `fieldset` parent). -/
def extract_summary (doc : Html) : Option (List (String × String)) :=
  match feesFieldsetOf doc with
  | none => none
  | some none => none
  | some (some fs) =>
    some (pairUp (descendantsP (tagNamed "dt") fs) (descendantsP (tagNamed "dd") fs))

/-- `_extract_detail` (parser.py): records are `(Description, Fee)` pairs
from the first two cells of each `tbody tr` row with at least two cells of
the first `table` carrying class `table--secondary`; rows with fewer than
two cells are skipped; `none` models the `return None` path (no such
table). -/
def extract_detail (doc : Html) : Option (List (String × String)) :=
  match docFindFirst (fun nm a => nm == "table" && classHas a "table--secondary") doc with
  | none => none
  | some table =>
    let rows := (descendantsP (tagNamed "tbody") table).flatMap (descendantsP (tagNamed "tr"))
    some (rows.filterMap fun row =>
      match descendantsP (tagNamed "td") row with
      | td1 :: td2 :: _ => some (getTextStrip td1, getTextStrip td2)
      | _ => none)

/-- `parse_dmv_response_and_save` (parser.py).  The result carries the
artifact file names written; a CSV is written only when its record list is
non-empty.  When both record lists are empty the function raises
(`Except.error`), dumping the full raw response text to
`failed_parse.html`; the error value carries the artifact names and the
dumped text. -/
def parse_dmv_response_and_save (htmlText : String) (doc : Html) :
    Except (List String × String) (List String) :=
  let summaryList := (extract_summary doc).getD []
  let artsS : List String := if summaryList.isEmpty then [] else ["summary.csv"]
  let detailList := (extract_detail doc).getD []
  let artsD : List String := if detailList.isEmpty then [] else ["detailed.csv"]
  if summaryList.isEmpty && detailList.isEmpty then
    Except.error (artsS ++ artsD ++ ["failed_parse.html"], htmlText)
  else
    Except.ok (artsS ++ artsD)

example :
    extract_summary
      (Html.tag "[document]" []
        [Html.tag "fieldset" []
          [Html.tag "legend" [] [Html.text " Fees "],
           Html.tag "dt" [] [Html.text "Reg Fee"],
           Html.tag "dd" [] [Html.text "$50"]]]) =
      some [("Reg Fee", "$50")] := by decide

/-! ### core.py — challenge configuration, hidden fields, solver -/

/-- Outcome of `extract_recaptcha_config` (core.py).  `noScript` and
`emptySitekey` are the two deliberate `RuntimeError` paths; `indexError`
is the `IndexError` escaping from `src.split("?", 1)[1]` when the `src`
has no query string. -/
inductive RecaptchaResult where
  | noScript
  | indexError
  | emptySitekey
  | ok (sitekey action : String)
deriving DecidableEq

/-- Whether a `RecaptchaResult` is the success case. -/
def RecaptchaResult.isOk : RecaptchaResult → Bool
  | .ok _ _ => true
  | _ => false

/-- Python `urllib.parse.parse_qs` field list: split the query string on
`&`, drop fields without `=` or with a blank value (`keep_blank_values`
defaults to false).  Percent-decoding and `+` decoding are not modelled;
no marker the source inspects uses them. -/
def qsPairs (qs : String) : List (String × String) :=
  (splitChar '&' qs).filterMap fun p =>
    match splitChar '=' p with
    | [] => none
    | [_] => none
    | k :: rest =>
      let v := interStr "=" rest
      if v == "" then none else some (k, v)

/-- `params.get(key, [""])[0]`: first value bound to `key`, or `""`. -/
def qsFirst (qs key : String) : String :=
  match (qsPairs qs).find? (fun p => p.1 == key) with
  | some p => p.2
  | none => ""

/-- Filter for the loader script tag:
`soup.find("script", attrs={"src": lambda s: s and "recaptchav3.js" in s})`. -/
def isRecaptchaScriptTag (nm : String) (attrs : List (String × String)) : Bool :=
  nm == "script" &&
    (match attrGet attrs "src" with
     | some s => !(s == "") && strContains s "recaptchav3.js"
     | none => false)

/-- The `src` attribute of an element (`""` if absent; for the tag found by
`isRecaptchaScriptTag` it is always present and non-empty). -/
def srcOf : Html → String
  | .text _ => ""
  | .tag _ attrs _ => attrGetD attrs "src" ""

/-- `extract_recaptcha_config` (core.py): locate the loader script, split
its `src` at the first `?`, parse the query string, and return
`(sitekey, action)`; fails when the script is absent or the sitekey is
empty.  The `action` value is never checked. -/
def extract_recaptcha_config (doc : Html) : RecaptchaResult :=
  match docFindFirst isRecaptchaScriptTag doc with
  | none => RecaptchaResult.noScript
  | some scriptTag =>
    let src := srcOf scriptTag
    match splitChar '?' src with
    | [] => RecaptchaResult.indexError
    | [_] => RecaptchaResult.indexError
    | _ :: rest =>
      let qs := interStr "?" rest
      let sitekey := qsFirst qs "sitekey"
      let action := qsFirst qs "action"
      if sitekey == "" then RecaptchaResult.emptySitekey
      else RecaptchaResult.ok sitekey action

/-- Filter for `form#FeeRequestForm`. -/
def isTargetForm (nm : String) (attrs : List (String × String)) : Bool :=
  nm == "form" && (attrGet attrs "id" == some "FeeRequestForm")

/-- Filter for `input[type='hidden']` as executed via
`soup.select("form#FeeRequestForm input[type='hidden']")`: in an HTML
document soupsieve matches the `type` attribute value
ASCII-case-insensitively, so `type="HIDDEN"` also matches.  (Tag and
attribute names are already lower-cased by the `html.parser` parse step,
which is external to the embedding.) -/
def isHiddenInput (nm : String) (attrs : List (String × String)) : Bool :=
  nm == "input" &&
    (match attrGet attrs "type" with
     | some t => lowerStr t == "hidden"
     | none => false)

/-- The hidden inputs selected by
`soup.select("form#FeeRequestForm input[type='hidden']")`: hidden inputs
that are descendants of a `FeeRequestForm` form, in document order. -/
def hiddenInputsOf (doc : Html) : List Html :=
  (docFindAll isTargetForm doc).flatMap (descendantsP isHiddenInput)

/-- The `(name, value)` pair of an input element; the source guards the
assignment with `if name:`, whose Python truthiness skips inputs whose
`name` attribute is absent or the empty string; a missing `value`
attribute yields `""` (`inp.get("value", "")`). -/
def nameValOf : Html → Option (String × String)
  | .text _ => none
  | .tag _ attrs _ =>
    match attrGet attrs "name" with
    | some n => if n == "" then none else some (n, attrGetD attrs "value" "")
    | none => none

/-- The `(name, value)` pairs of the hidden inputs carrying a non-empty
name, in document order. -/
def hiddenNamed (doc : Html) : List (String × String) :=
  (hiddenInputsOf doc).filterMap nameValOf

/-- The `name` attribute values (empty or not) of the hidden inputs under
the target form — the reference set the specification's key-set property
speaks about. -/
def hiddenNameAttrs (doc : Html) : List String :=
  (hiddenInputsOf doc).filterMap fun h =>
    match h with
    | .text _ => none
    | .tag _ attrs _ => attrGet attrs "name"

/-- The hidden-field extraction loop of `run_scrape` step 3 (core.py),
the path the program executes: build a dict by assigning
`hidden[name] = value` for every truthily-named hidden input in document
order.  (The standalone helper of core.py also guards with `if name:`;
it differs only in locating the inputs with `find_all`'s exact `type`
match instead of the select path embedded here.) -/
def extract_hidden_fields (doc : Html) : List (String × String) :=
  pyAssignAll [] (hiddenNamed doc)

/-! ### core.py — orchestration (`run_scrape`)

The external effects are abstracted into an environment:
GET/POST results (`none` models a raised network error), the anti-captcha
solver's returned token per invocation (the library returns a falsy value
on failure, modelled by `""`), the generated random payload, the measured
wall-clock duration of the first solve attempt, and the configured
`CAPTCHA_TIMEOUT` threshold in milliseconds.
-/

/-- Environment of one `run_scrape` invocation. -/
structure Env where
  /-- Parsed form page from the initial GET (`none`: the GET raised). -/
  formDoc : Option Html
  /-- Output of `generate_random_payload` (external randomness). -/
  payload : List (String × String)
  /-- Token returned by the solver on the first invocation (`""`: falsy,
  treated as failure). -/
  solver1 : String
  /-- Measured elapsed wall-clock time of the first solve attempt, ms. -/
  elapsed1 : Nat
  /-- `int(os.getenv("CAPTCHA_TIMEOUT", "60000"))`. -/
  captchaTimeout : Nat
  /-- Parsed form page from the retry GET (`none`: the GET raised). -/
  refetchDoc : Option Html
  /-- Token returned by the solver on the second invocation. -/
  solver2 : String
  /-- POST result: raw response text and its parse (`none`: the POST
  raised). -/
  postResp : Option (String × Html)

/-- Terminal result of `run_scrape`; each failure case corresponds to one
early `return` of the source. -/
inductive Outcome where
  | fetchFailed
  | challengeFailed
  | submitFailed
  | rejected
  | validationFailed
  | parseFailed
  | success
deriving DecidableEq

/-- Observation trace of one `run_scrape` invocation. -/
structure St where
  /-- Number of `solver.solve_and_return_solution()` invocations. -/
  solverCalls : Nat
  /-- Whether the retry re-fetch of the form page happened. -/
  refetched : Bool
  /-- Hidden-field mapping extracted from the initial form page. -/
  hiddenUsed : Option (List (String × String))
  /-- Challenge token stored into the form body. -/
  tokenUsed : Option String
  /-- Combined body handed to the POST. -/
  submitted : Option (List (String × String))
  /-- Whether the POST succeeded (a response body was received). -/
  posted : Bool
  /-- Whether `parse_dmv_response_and_save` was invoked. -/
  parsed : Bool
  /-- Raw text dumped to `failed_parse.html`, when written. -/
  failureDump : Option String
  /-- Artifact file names written to the run directory, in order (the
  per-run debug log is part of the excluded logging setup). -/
  artifacts : List String
deriving DecidableEq

/-- Initial trace. -/
def st0 : St :=
  { solverCalls := 0, refetched := false, hiddenUsed := none, tokenUsed := none,
    submitted := none, posted := false, parsed := false, failureDump := none,
    artifacts := [] }

/-- `solve_captcha` (core.py) given the page HTML and the token the
external solver would return: extract the challenge configuration, then
invoke the solver once; a falsy token raises.  Returns the token on
success and the number of solver invocations (`0` when configuration
extraction already raised). -/
def solve_captcha (doc : Html) (solverToken : String) : Option String × Nat :=
  match extract_recaptcha_config doc with
  | RecaptchaResult.ok _ _ =>
    if solverToken == "" then (none, 1) else (some solverToken, 1)
  | _ => (none, 0)

/-- Steps 12 of `run_scrape`: invoke the parser on the accepted body. -/
def parseStage (st : St) (respText : String) (respDoc : Html) : Outcome × St :=
  let st2 := { st with parsed := true }
  match parse_dmv_response_and_save respText respDoc with
  | Except.ok arts =>
    (Outcome.success, { st2 with artifacts := st2.artifacts ++ arts })
  | Except.error (arts, dump) =>
    (Outcome.parseFailed,
      { st2 with artifacts := st2.artifacts ++ arts, failureDump := some dump })

/-- Step 11 of `run_scrape`, first check: the rejection phrase as a
substring of the lower-cased body (`"session not verified" in html_lower`). -/
def rejectionHit (respText : String) : Bool :=
  strContains (lowerStr respText) "session not verified"

/-- Step 11 of `run_scrape`, second check: the error-alert marker in the
raw body (case-sensitive) together with the form legend text in the
lower-cased body. -/
def validationHit (respText : String) : Bool :=
  strContains respText "<div class=\"alert alert--error\"" &&
  strContains (lowerStr respText) "<legend>calculate new resident fees</legend>"

/-- Steps 9–12 of `run_scrape`: record the response artifacts, run the
pre-parse sanity checks in order (rejection phrase first, then the
validation-error markers), then parse. -/
def classifyStage (st : St) (respText : String) (respDoc : Html) : Outcome × St :=
  let st2 := { st with
               posted := true
               artifacts := st.artifacts ++ ["response.html", "response_info.json"] }
  if rejectionHit respText then
    (Outcome.rejected, st2)
  else if validationHit respText then
    (Outcome.validationFailed, st2)
  else
    parseStage st2 respText respDoc

/-- Steps 6–8 of `run_scrape`: save `form_data.json` and
`request_info.json`, then POST the combined body. -/
def submitStage (env : Env) (st : St) (formData : List (String × String)) :
    Outcome × St :=
  let st2 := { st with
               submitted := some formData
               artifacts := st.artifacts ++ ["form_data.json", "request_info.json"] }
  match env.postResp with
  | none => (Outcome.submitFailed, st2)
  | some (respText, respDoc) => classifyStage st2 respText respDoc

/-- End of step 5 of `run_scrape`: store the token under the fixed field
name and continue to submission. -/
def tokenStage (env : Env) (st : St) (formData0 : List (String × String))
    (token : String) : Outcome × St :=
  submitStage env { st with tokenUsed := some token }
    (pyInsert formData0 "g-recaptcha-response" token)

/-- Step 5 of `run_scrape`: first solve attempt; on failure, retry exactly
once — re-fetching the form page first — but only when the measured
elapsed time of the first attempt exceeds the timeout threshold. -/
def solveStage (env : Env) (st : St) (doc : Html)
    (formData0 : List (String × String)) : Outcome × St :=
  match solve_captcha doc env.solver1 with
  | (some tok, c) => tokenStage env { st with solverCalls := st.solverCalls + c } formData0 tok
  | (none, c) =>
    let st2 := { st with solverCalls := st.solverCalls + c }
    if env.elapsed1 > env.captchaTimeout then
      match env.refetchDoc with
      | none => (Outcome.challengeFailed, st2)
      | some d2 =>
        let st3 := { st2 with refetched := true }
        match solve_captcha d2 env.solver2 with
        | (some tok, c2) =>
          tokenStage env { st3 with solverCalls := st3.solverCalls + c2 } formData0 tok
        | (none, c2) =>
          (Outcome.challengeFailed, { st3 with solverCalls := st3.solverCalls + c2 })
    else
      (Outcome.challengeFailed, st2)

/-- `run_scrape` (core.py): fetch the form page, write `form.html`,
extract and save the hidden fields, generate the payload (saving
`payload.json`), merge `{**hidden_fields, **payload}`, solve the
challenge with the single-retry policy, and continue to submission,
classification and parsing. -/
def run_scrape (env : Env) : Outcome × St :=
  match env.formDoc with
  | none => (Outcome.fetchFailed, st0)
  | some doc =>
    let hidden := extract_hidden_fields doc
    let st := { st0 with
      artifacts := ["form.html", "hidden_fields.json", "payload.json"],
      hiddenUsed := some hidden }
    solveStage env st doc (pyAssignAll hidden env.payload)

/-! ### Stage bookkeeping lemmas -/

theorem solve_captcha_calls_le (d : Html) (s : String) : (solve_captcha d s).2 ≤ 1 := by
  unfold solve_captcha
  cases extract_recaptcha_config d with
  | ok sk a =>
    by_cases h : s == ""
    · simp [h]
    · simp [h]
  | noScript => simp
  | indexError => simp
  | emptySitekey => simp

theorem solve_captcha_calls_ok (d : Html) (s : String) :
    (solve_captcha d s).2 = 1 → (extract_recaptcha_config d).isOk = true := by
  unfold solve_captcha
  cases h : extract_recaptcha_config d with
  | ok sk a => intro _; rfl
  | noScript => intro hc; exact absurd hc (by simp)
  | indexError => intro hc; exact absurd hc (by simp)
  | emptySitekey => intro hc; exact absurd hc (by simp)

theorem parseStage_fields (st : St) (t : String) (d : Html) :
    (parseStage st t d).2.solverCalls = st.solverCalls ∧
    (parseStage st t d).2.refetched = st.refetched ∧
    (parseStage st t d).2.hiddenUsed = st.hiddenUsed ∧
    (parseStage st t d).2.tokenUsed = st.tokenUsed ∧
    (parseStage st t d).2.submitted = st.submitted ∧
    (parseStage st t d).2.posted = st.posted ∧
    (parseStage st t d).2.parsed = true ∧
    ∃ l, (parseStage st t d).2.artifacts = st.artifacts ++ l := by
  unfold parseStage
  cases parse_dmv_response_and_save t d with
  | error e =>
    obtain ⟨arts, dump⟩ := e
    exact ⟨rfl, rfl, rfl, rfl, rfl, rfl, rfl, arts, rfl⟩
  | ok arts =>
    exact ⟨rfl, rfl, rfl, rfl, rfl, rfl, rfl, arts, rfl⟩

theorem classifyStage_fields (st : St) (t : String) (d : Html) :
    (classifyStage st t d).2.solverCalls = st.solverCalls ∧
    (classifyStage st t d).2.refetched = st.refetched ∧
    (classifyStage st t d).2.hiddenUsed = st.hiddenUsed ∧
    (classifyStage st t d).2.tokenUsed = st.tokenUsed ∧
    (classifyStage st t d).2.submitted = st.submitted ∧
    ∃ l, (classifyStage st t d).2.artifacts = st.artifacts ++ l := by
  simp only [classifyStage]
  split
  · exact ⟨rfl, rfl, rfl, rfl, rfl, ["response.html", "response_info.json"], rfl⟩
  · split
    · exact ⟨rfl, rfl, rfl, rfl, rfl, ["response.html", "response_info.json"], rfl⟩
    · obtain ⟨f1, f2, f3, f4, f5, _, _, l, fl⟩ := parseStage_fields
        { st with
          posted := true
          artifacts := st.artifacts ++ ["response.html", "response_info.json"] } t d
      exact ⟨f1.trans rfl, f2.trans rfl, f3.trans rfl, f4.trans rfl, f5.trans rfl,
        ["response.html", "response_info.json"] ++ l,
        fl.trans (by rw [List.append_assoc])⟩

theorem submitStage_fields (env : Env) (st : St) (fd : List (String × String)) :
    (submitStage env st fd).2.solverCalls = st.solverCalls ∧
    (submitStage env st fd).2.refetched = st.refetched ∧
    (submitStage env st fd).2.hiddenUsed = st.hiddenUsed ∧
    (submitStage env st fd).2.tokenUsed = st.tokenUsed ∧
    (submitStage env st fd).2.submitted = some fd ∧
    ∃ l, (submitStage env st fd).2.artifacts = st.artifacts ++ l := by
  unfold submitStage
  cases env.postResp with
  | none =>
    exact ⟨rfl, rfl, rfl, rfl, rfl, ["form_data.json", "request_info.json"], rfl⟩
  | some p =>
    obtain ⟨t, d⟩ := p
    obtain ⟨f1, f2, f3, f4, f5, l, fl⟩ := classifyStage_fields
      { st with
        submitted := some fd
        artifacts := st.artifacts ++ ["form_data.json", "request_info.json"] } t d
    refine ⟨by rw [f1], by rw [f2], by rw [f3], by rw [f4], by rw [f5],
      ["form_data.json", "request_info.json"] ++ l, ?_⟩
    rw [fl]
    simp

theorem tokenStage_fields (env : Env) (st : St) (fd0 : List (String × String))
    (tok : String) :
    (tokenStage env st fd0 tok).2.solverCalls = st.solverCalls ∧
    (tokenStage env st fd0 tok).2.refetched = st.refetched ∧
    (tokenStage env st fd0 tok).2.hiddenUsed = st.hiddenUsed ∧
    (tokenStage env st fd0 tok).2.tokenUsed = some tok ∧
    (tokenStage env st fd0 tok).2.submitted =
      some (pyInsert fd0 "g-recaptcha-response" tok) ∧
    ∃ l, (tokenStage env st fd0 tok).2.artifacts = st.artifacts ++ l := by
  unfold tokenStage
  obtain ⟨f1, f2, f3, f4, f5, l, fl⟩ := submitStage_fields env
    { st with tokenUsed := some tok } (pyInsert fd0 "g-recaptcha-response" tok)
  exact ⟨by rw [f1], by rw [f2], by rw [f3], by rw [f4], f5, l, by rw [fl]⟩

theorem submitStage_shape (env : Env) (st : St) (fd : List (String × String))
    (h1 : st.posted = false) (h2 : st.parsed = false) (h3 : st.failureDump = none) :
    ((submitStage env st fd).1 = Outcome.submitFailed ∧
      (submitStage env st fd).2.posted = false ∧
      (submitStage env st fd).2.parsed = false)
    ∨ (∃ st2 t d, env.postResp = some (t, d) ∧
        submitStage env st fd = classifyStage st2 t d ∧
        st2.posted = false ∧ st2.parsed = false ∧ st2.failureDump = none ∧
        st2.artifacts = st.artifacts ++ ["form_data.json", "request_info.json"]) := by
  simp only [submitStage]
  cases hp : env.postResp with
  | none => exact Or.inl ⟨rfl, h1, h2⟩
  | some p =>
    obtain ⟨t, d⟩ := p
    exact Or.inr ⟨_, t, d, rfl, rfl, h1, h2, h3, rfl⟩

theorem tokenStage_shape (env : Env) (st : St) (fd0 : List (String × String))
    (tok : String) (h1 : st.posted = false) (h2 : st.parsed = false)
    (h3 : st.failureDump = none) :
    ((tokenStage env st fd0 tok).1 = Outcome.submitFailed ∧
      (tokenStage env st fd0 tok).2.posted = false ∧
      (tokenStage env st fd0 tok).2.parsed = false)
    ∨ (∃ st2 t d, env.postResp = some (t, d) ∧
        tokenStage env st fd0 tok = classifyStage st2 t d ∧
        st2.posted = false ∧ st2.parsed = false ∧ st2.failureDump = none ∧
        st2.artifacts = st.artifacts ++ ["form_data.json", "request_info.json"]) := by
  exact submitStage_shape env { st with tokenUsed := some tok }
    (pyInsert fd0 "g-recaptcha-response" tok) h1 h2 h3

theorem solveStage_shape (env : Env) (st : St) (doc : Html)
    (fd0 : List (String × String)) (h1 : st.posted = false) (h2 : st.parsed = false)
    (h3 : st.failureDump = none) :
    (((solveStage env st doc fd0).1 = Outcome.challengeFailed ∨
      (solveStage env st doc fd0).1 = Outcome.submitFailed) ∧
      (solveStage env st doc fd0).2.posted = false ∧
      (solveStage env st doc fd0).2.parsed = false)
    ∨ (∃ st2 t d, env.postResp = some (t, d) ∧
        solveStage env st doc fd0 = classifyStage st2 t d ∧
        st2.posted = false ∧ st2.parsed = false ∧ st2.failureDump = none ∧
        st2.artifacts = st.artifacts ++ ["form_data.json", "request_info.json"]) := by
  simp only [solveStage]
  split
  next tok c hs =>
    rcases tokenStage_shape env { st with solverCalls := st.solverCalls + c } fd0 tok
        h1 h2 h3 with ⟨ha, hb, hc⟩ | ⟨st2, t, d, hp, heq, h4, h5, h6, h7⟩
    · exact Or.inl ⟨Or.inr ha, hb, hc⟩
    · exact Or.inr ⟨st2, t, d, hp, heq, h4, h5, h6, h7⟩
  next c hs =>
    split
    · split
      · exact Or.inl ⟨Or.inl rfl, h1, h2⟩
      next d2 hr =>
        split
        next tok2 c2 hs2 =>
          rcases tokenStage_shape env
              { st with solverCalls := st.solverCalls + c + c2, refetched := true }
              fd0 tok2 h1 h2 h3 with ⟨ha, hb, hc⟩ | ⟨st2, t, d, hp, heq, h4, h5, h6, h7⟩
          · exact Or.inl ⟨Or.inr ha, hb, hc⟩
          · exact Or.inr ⟨st2, t, d, hp, heq, h4, h5, h6, h7⟩
        next c2 hs2 => exact Or.inl ⟨Or.inl rfl, h1, h2⟩
    · exact Or.inl ⟨Or.inl rfl, h1, h2⟩

theorem run_scrape_shape (env : Env) :
    (((run_scrape env).1 = Outcome.fetchFailed ∨
      (run_scrape env).1 = Outcome.challengeFailed ∨
      (run_scrape env).1 = Outcome.submitFailed) ∧
      (run_scrape env).2.posted = false ∧ (run_scrape env).2.parsed = false)
    ∨ (∃ st t d, env.postResp = some (t, d) ∧
        run_scrape env = classifyStage st t d ∧
        st.posted = false ∧ st.parsed = false ∧ st.failureDump = none ∧
        st.artifacts = ["form.html", "hidden_fields.json", "payload.json",
                        "form_data.json", "request_info.json"]) := by
  simp only [run_scrape]
  cases hf : env.formDoc with
  | none => exact Or.inl ⟨Or.inl rfl, rfl, rfl⟩
  | some doc =>
    rcases solveStage_shape env
        { st0 with
          artifacts := ["form.html", "hidden_fields.json", "payload.json"]
          hiddenUsed := some (extract_hidden_fields doc) }
        doc (pyAssignAll (extract_hidden_fields doc) env.payload) rfl rfl rfl with
      ⟨ha, hb, hc⟩ | ⟨st2, t, d, hp, heq, h4, h5, h6, h7⟩
    · exact Or.inl ⟨Or.inr ha, hb, hc⟩
    · exact Or.inr ⟨st2, t, d, hp, heq, h4, h5, h6, h7⟩

theorem classifyStage_rejected (st : St) (t : String) (d : Html)
    (h : rejectionHit t = true) :
    (classifyStage st t d).1 = Outcome.rejected ∧
    (classifyStage st t d).2.parsed = st.parsed := by
  simp only [classifyStage, h]
  exact ⟨rfl, rfl⟩

theorem classifyStage_validation (st : St) (t : String) (d : Html)
    (h1 : rejectionHit t = false) (h2 : validationHit t = true) :
    (classifyStage st t d).1 = Outcome.validationFailed ∧
    (classifyStage st t d).2.parsed = st.parsed := by
  simp only [classifyStage, h1, h2]
  exact ⟨rfl, rfl⟩

theorem classifyStage_parse (st : St) (t : String) (d : Html)
    (h1 : rejectionHit t = false) (h2 : validationHit t = false) :
    classifyStage st t d =
      parseStage
        { st with
          posted := true
          artifacts := st.artifacts ++ ["response.html", "response_info.json"] } t d := by
  simp only [classifyStage, h1, h2]
  rfl

theorem parseStage_empty (st : St) (t : String) (d : Html)
    (hs : (extract_summary d).getD [] = []) (hd2 : (extract_detail d).getD [] = []) :
    (parseStage st t d).1 = Outcome.parseFailed ∧
    (parseStage st t d).2.failureDump = some t ∧
    (parseStage st t d).2.artifacts = st.artifacts ++ ["failed_parse.html"] := by
  simp only [parseStage, parse_dmv_response_and_save, hs, hd2]
  exact ⟨rfl, rfl, rfl⟩

theorem parseStage_success (st : St) (t : String) (d : Html)
    (hsucc : (parseStage st t d).1 = Outcome.success) :
    ¬((extract_summary d).getD [] = [] ∧ (extract_detail d).getD [] = []) ∧
    (parseStage st t d).2.artifacts =
      st.artifacts ++
        ((if ((extract_summary d).getD []).isEmpty then [] else ["summary.csv"]) ++
         (if ((extract_detail d).getD []).isEmpty then [] else ["detailed.csv"])) := by
  cases h1 : ((extract_summary d).getD []).isEmpty with
  | true =>
    cases h2 : ((extract_detail d).getD []).isEmpty with
    | true =>
      simp only [parseStage, parse_dmv_response_and_save, h1, h2] at hsucc
      exact absurd hsucc (by simp)
    | false =>
      constructor
      · rintro ⟨e1, e2⟩
        rw [e2] at h2
        simp at h2
      · simp only [parseStage, parse_dmv_response_and_save, h1, h2]
        rfl
  | false =>
    constructor
    · rintro ⟨e1, e2⟩
      rw [e1] at h1
      simp at h1
    · cases h2 : ((extract_detail d).getD []).isEmpty with
      | true =>
        simp only [parseStage, parse_dmv_response_and_save, h1, h2]
        rfl
      | false =>
        simp only [parseStage, parse_dmv_response_and_save, h1, h2]
        rfl

theorem solveStage_fields (env : Env) (st : St) (doc : Html)
    (fd0 : List (String × String)) :
    (solveStage env st doc fd0).2.hiddenUsed = st.hiddenUsed ∧
    ∃ l, (solveStage env st doc fd0).2.artifacts = st.artifacts ++ l := by
  simp only [solveStage]
  split
  next tok c hs =>
    obtain ⟨_, _, f3, _, _, l, fl⟩ :=
      tokenStage_fields env { st with solverCalls := st.solverCalls + c } fd0 tok
    exact ⟨f3.trans rfl, l, fl.trans rfl⟩
  next c hs =>
    split
    · split
      · exact ⟨rfl, [], (List.append_nil _).symm⟩
      next d2 hr =>
        split
        next tok2 c2 hs2 =>
          obtain ⟨_, _, f3, _, _, l, fl⟩ := tokenStage_fields env
            { st with solverCalls := st.solverCalls + c + c2, refetched := true } fd0 tok2
          exact ⟨f3.trans rfl, l, fl.trans rfl⟩
        next c2 hs2 => exact ⟨rfl, [], (List.append_nil _).symm⟩
    · exact ⟨rfl, [], (List.append_nil _).symm⟩

theorem solveStage_submitted (env : Env) (st : St) (doc : Html)
    (fd0 : List (String × String)) (h : st.submitted = none) :
    (solveStage env st doc fd0).2.submitted = none
    ∨ ∃ tok, (solveStage env st doc fd0).2.submitted =
        some (pyInsert fd0 "g-recaptcha-response" tok) ∧
      (solveStage env st doc fd0).2.tokenUsed = some tok := by
  simp only [solveStage]
  split
  next tok c hs =>
    obtain ⟨_, _, _, f4, f5, _, _⟩ :=
      tokenStage_fields env { st with solverCalls := st.solverCalls + c } fd0 tok
    exact Or.inr ⟨tok, f5, f4⟩
  next c hs =>
    split
    · split
      · exact Or.inl h
      next d2 hr =>
        split
        next tok2 c2 hs2 =>
          obtain ⟨_, _, _, f4, f5, _, _⟩ := tokenStage_fields env
            { st with solverCalls := st.solverCalls + c + c2, refetched := true } fd0 tok2
          exact Or.inr ⟨tok2, f5, f4⟩
        next c2 hs2 => exact Or.inl h
    · exact Or.inl h

theorem run_scrape_submitted (env : Env) (fd : List (String × String))
    (h : (run_scrape env).2.submitted = some fd) :
    ∃ doc tok, env.formDoc = some doc ∧
      (run_scrape env).2.hiddenUsed = some (extract_hidden_fields doc) ∧
      (run_scrape env).2.tokenUsed = some tok ∧
      fd = pyInsert (pyAssignAll (extract_hidden_fields doc) env.payload)
        "g-recaptcha-response" tok := by
  revert h
  simp only [run_scrape]
  cases hf : env.formDoc with
  | none => intro h; exact absurd h (by simp [st0])
  | some doc =>
    intro h
    have hhid := (solveStage_fields env
      { st0 with
        artifacts := ["form.html", "hidden_fields.json", "payload.json"]
        hiddenUsed := some (extract_hidden_fields doc) }
      doc (pyAssignAll (extract_hidden_fields doc) env.payload)).1
    rcases solveStage_submitted env
        { st0 with
          artifacts := ["form.html", "hidden_fields.json", "payload.json"]
          hiddenUsed := some (extract_hidden_fields doc) }
        doc (pyAssignAll (extract_hidden_fields doc) env.payload) rfl with
      hnone | ⟨tok, hsub, htok⟩
    · rw [h] at hnone
      exact absurd hnone (by simp)
    · rw [h] at hsub
      injection hsub with hsub
      exact ⟨doc, tok, rfl, hhid.trans rfl, htok, hsub⟩

theorem run_scrape_posted (env : Env) (hq : (run_scrape env).2.posted = true) :
    ∃ st t d, env.postResp = some (t, d) ∧ run_scrape env = classifyStage st t d ∧
      st.posted = false ∧ st.parsed = false ∧ st.failureDump = none ∧
      st.artifacts = ["form.html", "hidden_fields.json", "payload.json",
                      "form_data.json", "request_info.json"] := by
  rcases run_scrape_shape env with ⟨_, hb, _⟩ | h
  · rw [hq] at hb
    exact absurd hb (by simp)
  · exact h

theorem pairUp_length (dts dds : List Html) : (pairUp dts dds).length = dts.length := by
  induction dts generalizing dds with
  | nil => simp [pairUp]
  | cons dt dts ih =>
    cases dds with
    | nil => simp [pairUp, ih]
    | cons dd dds => simp [pairUp, ih]

theorem pairUp_getElem (dts dds : List Html) (i : Nat) :
    (pairUp dts dds)[i]? =
      (dts[i]?).map (fun dt =>
        (getTextStrip dt, ((dds[i]?).map getTextStrip).getD "")) := by
  induction dts generalizing dds i with
  | nil => simp [pairUp]
  | cons dt dts ih =>
    cases dds with
    | nil =>
      cases i with
      | zero => simp [pairUp]
      | succ n => simpa [pairUp] using ih [] n
    | cons dd dds =>
      cases i with
      | zero => simp [pairUp]
      | succ n => simpa [pairUp] using ih dds n

/-! ### Concrete documents and environments for witnesses -/

/-- A hidden input under the target form. -/
def hiddenInp : Html :=
  Html.tag "input" [("type", "hidden"), ("name", "a"), ("value", "1")] []

/-- The target form holding one hidden input. -/
def formOk : Html := Html.tag "form" [("id", "FeeRequestForm")] [hiddenInp]

/-- A loader script with both query parameters present. -/
def scriptOk : Html :=
  Html.tag "script" [("src", "recaptchav3.js?sitekey=K&action=A")] []

/-- A form page with the target form and a good loader script. -/
def formPageOk : Html := Html.tag "[document]" [] [formOk, scriptOk]

/-- A response document with a non-empty detail table and no `Fees`
fieldset. -/
def detailDoc : Html :=
  Html.tag "[document]" []
    [Html.tag "table" [("class", "table--secondary")]
      [Html.tag "tbody" []
        [Html.tag "tr" [] [Html.tag "td" [] [Html.text "D1"],
                           Html.tag "td" [] [Html.text "$5"]]]]]

/-- A response document with a `Fees` fieldset holding one label/value
pair and no detail table. -/
def summaryDoc : Html :=
  Html.tag "[document]" []
    [Html.tag "fieldset" []
      [Html.tag "legend" [] [Html.text " Fees "],
       Html.tag "dt" [] [Html.text "Reg Fee"],
       Html.tag "dd" [] [Html.text "$50"]]]

/-- Environment of a fully successful run. -/
def envOk : Env :=
  { formDoc := some formPageOk, payload := [("p", "2")], solver1 := "tok",
    elapsed1 := 100, captchaTimeout := 60000, refetchDoc := none, solver2 := "",
    postResp := some ("<html>ok</html>", detailDoc) }

/-- Environment whose first solve attempt fails after the timeout and
whose retry succeeds. -/
def envRetry : Env :=
  { envOk with
    solver1 := ""
    elapsed1 := 70000
    refetchDoc := some formPageOk
    solver2 := "t2" }

/-! ### C1 — challenge retry policy -/

theorem solveStage_retry (env : Env) (st : St) (doc : Html)
    (fd0 : List (String × String)) (h0 : st.solverCalls = 0)
    (hrf : st.refetched = false) :
    (solveStage env st doc fd0).2.solverCalls ≤ 2
    ∧ ((solveStage env st doc fd0).2.refetched = true →
        (solve_captcha doc env.solver1).1 = none ∧
        env.elapsed1 > env.captchaTimeout)
    ∧ ((solveStage env st doc fd0).2.solverCalls = 2 →
        (solveStage env st doc fd0).2.refetched = true ∧
        ∃ d2, env.refetchDoc = some d2 ∧ (extract_recaptcha_config d2).isOk = true)
    ∧ ((solve_captcha doc env.solver1).1 = none →
        env.elapsed1 ≤ env.captchaTimeout →
        (solveStage env st doc fd0).1 = Outcome.challengeFailed)
    ∧ ((solve_captcha doc env.solver1).1 = none →
        (∀ d2, env.refetchDoc = some d2 → (solve_captcha d2 env.solver2).1 = none) →
        (solveStage env st doc fd0).1 = Outcome.challengeFailed) := by
  have hle1 := solve_captcha_calls_le doc env.solver1
  simp only [solveStage]
  split
  next tok c hs =>
    have hc : c ≤ 1 := by rw [hs] at hle1; exact hle1
    obtain ⟨f1, f2, _, _, _, _⟩ :=
      tokenStage_fields env { st with solverCalls := st.solverCalls + c } fd0 tok
    have g1 : (tokenStage env { st with solverCalls := st.solverCalls + c } fd0 tok).2.solverCalls
        = st.solverCalls + c := f1.trans rfl
    have g2 : (tokenStage env { st with solverCalls := st.solverCalls + c } fd0 tok).2.refetched
        = st.refetched := f2.trans rfl
    refine ⟨?_, ?_, ?_, ?_, ?_⟩
    · rw [g1, h0]; omega
    · intro hcon
      rw [g2, hrf] at hcon
      cases hcon
    · intro h2
      rw [g1, h0] at h2
      omega
    · intro hfail
      rw [hs] at hfail
      cases hfail
    · intro hfail
      rw [hs] at hfail
      cases hfail
  next c hs =>
    have hc : c ≤ 1 := by rw [hs] at hle1; exact hle1
    split
    next he =>
      split
      next hr =>
        refine ⟨by simp [h0]; omega, fun _ => ⟨by rw [hs], he⟩, ?_, ?_, fun _ _ => rfl⟩
        · intro h2
          have : st.solverCalls + c = 2 := h2
          omega
        · intro _ hle
          exact absurd hle (not_le.mpr he)
      next d2 hr =>
        have hle2 := solve_captcha_calls_le d2 env.solver2
        split
        next tok2 c2 hs2 =>
          have hc2 : c2 ≤ 1 := by rw [hs2] at hle2; exact hle2
          obtain ⟨f1, f2, _, _, _, _⟩ := tokenStage_fields env
            { st with solverCalls := st.solverCalls + c + c2, refetched := true } fd0 tok2
          have g1 : (tokenStage env
              { st with solverCalls := st.solverCalls + c + c2, refetched := true }
              fd0 tok2).2.solverCalls = st.solverCalls + c + c2 := f1.trans rfl
          have g2 : (tokenStage env
              { st with solverCalls := st.solverCalls + c + c2, refetched := true }
              fd0 tok2).2.refetched = true := f2.trans rfl
          refine ⟨?_, fun _ => ⟨by rw [hs], he⟩, ?_, ?_, ?_⟩
          · rw [g1, h0]; omega
          · intro h2
            rw [g1, h0] at h2
            have hc2eq : c2 = 1 := by omega
            refine ⟨g2, d2, hr, solve_captcha_calls_ok d2 env.solver2 ?_⟩
            rw [hs2]
            exact hc2eq
          · intro _ hle
            exact absurd hle (not_le.mpr he)
          · intro _ hall
            have := hall d2 hr
            rw [hs2] at this
            cases this
        next c2 hs2 =>
          have hc2 : c2 ≤ 1 := by rw [hs2] at hle2; exact hle2
          refine ⟨by simp [h0]; omega, fun _ => ⟨by rw [hs], he⟩, ?_, ?_, fun _ _ => rfl⟩
          · intro h2
            have h2e : st.solverCalls + c + c2 = 2 := h2
            have hc2eq : c2 = 1 := by omega
            refine ⟨rfl, d2, hr, solve_captcha_calls_ok d2 env.solver2 ?_⟩
            rw [hs2]
            exact hc2eq
          · intro _ hle
            exact absurd hle (not_le.mpr he)
    next he =>
      refine ⟨by simp [h0]; omega, ?_, ?_, fun _ _ => rfl, fun _ _ => rfl⟩
      · intro hcon
        have : st.refetched = true := hcon
        rw [hrf] at this
        cases this
      · intro h2
        have : st.solverCalls + c = 2 := h2
        omega

/-- C1: during one run the challenge solver is invoked at most twice; the
retry (with its re-fetch of the form page) happens only when the first
solve attempt failed and its measured elapsed time exceeded the configured
timeout threshold; a second solver invocation implies the form was
re-fetched and the challenge configuration was re-extracted successfully
from the fresh page; a first failure within the threshold aborts the run
as a challenge failure, and so does a failure of the retry, with no
further attempt. -/
theorem challenge_retry_policy (env : Env) :
    (run_scrape env).2.solverCalls ≤ 2
    ∧ ((run_scrape env).2.refetched = true →
        (∃ d1, env.formDoc = some d1 ∧ (solve_captcha d1 env.solver1).1 = none) ∧
        env.elapsed1 > env.captchaTimeout)
    ∧ ((run_scrape env).2.solverCalls = 2 →
        (run_scrape env).2.refetched = true ∧
        ∃ d2, env.refetchDoc = some d2 ∧ (extract_recaptcha_config d2).isOk = true)
    ∧ (∀ d1, env.formDoc = some d1 → (solve_captcha d1 env.solver1).1 = none →
        env.elapsed1 ≤ env.captchaTimeout →
        (run_scrape env).1 = Outcome.challengeFailed)
    ∧ (∀ d1, env.formDoc = some d1 → (solve_captcha d1 env.solver1).1 = none →
        (∀ d2, env.refetchDoc = some d2 → (solve_captcha d2 env.solver2).1 = none) →
        (run_scrape env).1 = Outcome.challengeFailed) := by
  simp only [run_scrape]
  cases hf : env.formDoc with
  | none =>
    refine ⟨by simp [st0], ?_, ?_, ?_, ?_⟩
    · intro hcon
      exact absurd hcon (by simp [st0])
    · intro h2
      exact absurd h2 (by simp [st0])
    · intro d1 hd1
      cases hd1
    · intro d1 hd1
      cases hd1
  | some doc =>
    obtain ⟨g1, g2, g3, g4, g5⟩ := solveStage_retry env
      { st0 with
        artifacts := ["form.html", "hidden_fields.json", "payload.json"]
        hiddenUsed := some (extract_hidden_fields doc) }
      doc (pyAssignAll (extract_hidden_fields doc) env.payload) rfl rfl
    refine ⟨g1, ?_, g3, ?_, ?_⟩
    · intro hcon
      obtain ⟨hfail, he⟩ := g2 hcon
      exact ⟨⟨doc, rfl, hfail⟩, he⟩
    · intro d1 hd1
      injection hd1 with hd1
      subst hd1
      exact g4
    · intro d1 hd1
      injection hd1 with hd1
      subst hd1
      exact g5

/-- C1 witness: the retry scenario — first attempt fails beyond the
threshold, the form is re-fetched and the second attempt succeeds. -/
theorem challenge_retry_policy_witness :
    (run_scrape envRetry).2.solverCalls ≤ 2
    ∧ ((run_scrape envRetry).2.refetched = true →
        (∃ d1, envRetry.formDoc = some d1 ∧ (solve_captcha d1 envRetry.solver1).1 = none) ∧
        envRetry.elapsed1 > envRetry.captchaTimeout)
    ∧ ((run_scrape envRetry).2.solverCalls = 2 →
        (run_scrape envRetry).2.refetched = true ∧
        ∃ d2, envRetry.refetchDoc = some d2 ∧ (extract_recaptcha_config d2).isOk = true)
    ∧ (∀ d1, envRetry.formDoc = some d1 → (solve_captcha d1 envRetry.solver1).1 = none →
        envRetry.elapsed1 ≤ envRetry.captchaTimeout →
        (run_scrape envRetry).1 = Outcome.challengeFailed)
    ∧ (∀ d1, envRetry.formDoc = some d1 → (solve_captcha d1 envRetry.solver1).1 = none →
        (∀ d2, envRetry.refetchDoc = some d2 → (solve_captcha d2 envRetry.solver2).1 = none) →
        (run_scrape envRetry).1 = Outcome.challengeFailed) :=
  challenge_retry_policy envRetry

/-! ### C2 — summary extraction with mismatched counts -/

/-- A `Fees` fieldset with two labels and one value. -/
def fsMismatch : Html :=
  Html.tag "fieldset" []
    [Html.tag "legend" [] [Html.text "Fees"],
     Html.tag "dt" [] [Html.text "A"],
     Html.tag "dt" [] [Html.text "B"],
     Html.tag "dd" [] [Html.text "$1"]]

/-- Document wrapping `fsMismatch`. -/
def feesDocMismatch : Html := Html.tag "[document]" [] [fsMismatch]

/-- C2 counterexample: with N = 2 labels and M = 1 value, summary
extraction yields 2 records (padding the missing value with the empty
string), not min(N, M) = 1 records as claimed. -/
theorem summary_mismatch_counterexample :
    (descendantsP (tagNamed "dt") fsMismatch).length = 2 ∧
    (descendantsP (tagNamed "dd") fsMismatch).length = 1 ∧
    extract_summary feesDocMismatch = some [("A", "$1"), ("B", "")] ∧
    ((extract_summary feesDocMismatch).getD []).length ≠ min 2 1 := by
  refine ⟨?_, ?_, ?_, ?_⟩ <;> decide

/-- C2 (amended): for every document whose `Fees` fieldset is found,
summary extraction yields exactly N records — one per label element in
document order — without raising; the i-th record pairs the i-th label
with the i-th value when i < M, and with the empty string when the values
are exhausted. -/
theorem summary_pads_missing_values (doc fs : Html)
    (h : feesFieldsetOf doc = some (some fs)) :
    extract_summary doc =
      some (pairUp (descendantsP (tagNamed "dt") fs)
                   (descendantsP (tagNamed "dd") fs))
    ∧ (∀ dts dds : List Html, (pairUp dts dds).length = dts.length)
    ∧ (∀ (dts dds : List Html) (i : Nat),
        (pairUp dts dds)[i]? =
          (dts[i]?).map (fun dt =>
            (getTextStrip dt, ((dds[i]?).map getTextStrip).getD ""))) := by
  refine ⟨?_, pairUp_length, pairUp_getElem⟩
  simp [extract_summary, h]

/-- C2 witness: the amended theorem applied to the mismatched fieldset. -/
theorem summary_pads_missing_values_witness :
    extract_summary feesDocMismatch =
      some (pairUp (descendantsP (tagNamed "dt") fsMismatch)
                   (descendantsP (tagNamed "dd") fsMismatch))
    ∧ (∀ dts dds : List Html, (pairUp dts dds).length = dts.length)
    ∧ (∀ (dts dds : List Html) (i : Nat),
        (pairUp dts dds)[i]? =
          (dts[i]?).map (fun dt =>
            (getTextStrip dt, ((dds[i]?).map getTextStrip).getD ""))) :=
  summary_pads_missing_values feesDocMismatch fsMismatch rfl

/-! ### C3 — empty extraction fails the run with a diagnostic dump -/

/-- A response document with neither record set. -/
def emptyDoc : Html := Html.tag "[document]" [] []

/-- Environment reaching the parser with an extractable-record-free body. -/
def envEmpty : Env := { envOk with postResp := some ("<html>bare</html>", emptyDoc) }

/-- C3: when the run reaches classification and the accepted response
yields empty summary and empty detail record sets, the run fails with the
empty-extraction error and the full response body is dumped to the
diagnostic artifact; consequently a successful run has at least one
non-empty record set. -/
theorem empty_extraction_fails (env : Env) (t : String) (d : Html)
    (hp : env.postResp = some (t, d)) :
    ((run_scrape env).2.posted = true → rejectionHit t = false →
      validationHit t = false →
      (extract_summary d).getD [] = [] → (extract_detail d).getD [] = [] →
      (run_scrape env).1 = Outcome.parseFailed ∧
      (run_scrape env).2.failureDump = some t ∧
      "failed_parse.html" ∈ (run_scrape env).2.artifacts)
    ∧ ((run_scrape env).1 = Outcome.success →
      ¬((extract_summary d).getD [] = [] ∧ (extract_detail d).getD [] = [])) := by
  constructor
  · intro hq hr hv hs hd2
    obtain ⟨st, t0, d0, hp0, heq, hpost, hparse, hdump, harts⟩ := run_scrape_posted env hq
    rw [hp] at hp0
    injection hp0 with hp0
    injection hp0 with het hed
    subst het
    subst hed
    rw [heq, classifyStage_parse st t d hr hv]
    obtain ⟨e1, e2, e3⟩ := parseStage_empty _ t d hs hd2
    refine ⟨e1, e2, ?_⟩
    rw [e3]
    simp
  · intro hsucc
    rcases run_scrape_shape env with ⟨ho, _, _⟩ | ⟨st, t0, d0, hp0, heq, _, _, _, _⟩
    · rw [hsucc] at ho
      rcases ho with h | h | h <;> exact absurd h (by decide)
    · rw [hp] at hp0
      injection hp0 with hp0
      injection hp0 with het hed
      subst het
      subst hed
      rw [heq] at hsucc
      cases hr : rejectionHit t with
      | true =>
        obtain ⟨e1, _⟩ := classifyStage_rejected st t d hr
        rw [e1] at hsucc
        exact absurd hsucc (by decide)
      | false =>
        cases hv : validationHit t with
        | true =>
          obtain ⟨e1, _⟩ := classifyStage_validation st t d hr hv
          rw [e1] at hsucc
          exact absurd hsucc (by decide)
        | false =>
          rw [classifyStage_parse st t d hr hv] at hsucc
          exact (parseStage_success _ t d hsucc).1

/-- C3 witness: a run whose accepted body yields no records fails with
the dump of the full body. -/
theorem empty_extraction_fails_witness :
    (run_scrape envEmpty).1 = Outcome.parseFailed ∧
    (run_scrape envEmpty).2.failureDump = some "<html>bare</html>" ∧
    "failed_parse.html" ∈ (run_scrape envEmpty).2.artifacts :=
  (empty_extraction_fails envEmpty "<html>bare</html>" emptyDoc rfl).1
    (by decide) (by decide) (by decide) (by decide) (by decide)

/-! ### C4 — rejection phrase short-circuits extraction -/

/-- Environment whose response carries the rejection phrase (mixed case). -/
def envRejected : Env :=
  { envOk with postResp := some ("x Session NOT Verified x", detailDoc) }

/-- C4: whenever the run reaches classification and the response body
contains the rejection phrase case-insensitively, the run terminates as
rejected and the fee extractor is never invoked on that body. -/
theorem rejection_aborts_without_extraction (env : Env) (t : String) (d : Html)
    (hp : env.postResp = some (t, d)) (hq : (run_scrape env).2.posted = true)
    (hr : rejectionHit t = true) :
    (run_scrape env).1 = Outcome.rejected ∧ (run_scrape env).2.parsed = false := by
  obtain ⟨st, t0, d0, hp0, heq, hpost, hparse, hdump, harts⟩ := run_scrape_posted env hq
  rw [hp] at hp0
  injection hp0 with hp0
  injection hp0 with het hed
  subst het
  subst hed
  rw [heq]
  obtain ⟨e1, e2⟩ := classifyStage_rejected st t d hr
  exact ⟨e1, e2.trans hparse⟩

/-- C4 witness: a body containing `Session NOT Verified` is rejected with
no parse. -/
theorem rejection_aborts_without_extraction_witness :
    (run_scrape envRejected).1 = Outcome.rejected ∧
    (run_scrape envRejected).2.parsed = false :=
  rejection_aborts_without_extraction envRejected "x Session NOT Verified x"
    detailDoc rfl (by decide) (by decide)

/-! ### C5 — challenge-configuration validation -/

/-- A page whose loader script has a sitekey but no action parameter. -/
def actionlessDoc : Html :=
  Html.tag "[document]" []
    [Html.tag "script" [("src", "recaptchav3.js?sitekey=K")] []]

/-- C5 counterexample: with a non-empty site key and an empty action name,
configuration extraction succeeds (returning the empty action) instead of
failing, so an empty action does not abort the run. -/
theorem empty_action_config_counterexample :
    extract_recaptcha_config actionlessDoc = RecaptchaResult.ok "K" "" ∧
    (extract_recaptcha_config actionlessDoc).isOk = true := by
  refine ⟨?_, ?_⟩ <;> decide

/-- C5 (amended): configuration extraction fails when the loader script is
absent or the extracted site key is empty; the action name is never
checked, and extraction succeeds (with the run proceeding to solving) even
when the action is empty.  Successful extraction guarantees a non-empty
site key only. -/
theorem config_fails_only_without_sitekey (doc : Html) :
    (∀ s a, extract_recaptcha_config doc = RecaptchaResult.ok s a → s ≠ "")
    ∧ (docFindFirst isRecaptchaScriptTag doc = none →
        extract_recaptcha_config doc = RecaptchaResult.noScript)
    ∧ (∀ scriptTag r1 rest, docFindFirst isRecaptchaScriptTag doc = some scriptTag →
        splitChar '?' (srcOf scriptTag) = r1 :: rest → rest ≠ [] →
        qsFirst (interStr "?" rest) "sitekey" = "" →
        extract_recaptcha_config doc = RecaptchaResult.emptySitekey) := by
  refine ⟨?_, ?_, ?_⟩
  · intro s a
    unfold extract_recaptcha_config
    split
    · intro h
      cases h
    next tg hf =>
      dsimp only
      split
      · intro h
        cases h
      · intro h
        cases h
      next r1 r2 rest2 hsp =>
        split
        next hk =>
          intro h
          cases h
        next hk =>
          intro h
          injection h with h1 h2
          intro hcon
          exact hk (by simp [h1, hcon])
  · intro hnone
    simp [extract_recaptcha_config, hnone]
  · intro tg r1 rest hf hsp hne hk
    cases rest with
    | nil => exact absurd rfl hne
    | cons r2 rest2 =>
      simp only [extract_recaptcha_config, hf, hsp]
      rw [if_pos (by simp [hk])]

/-- C5 witness: the amended theorem applied to the action-free page. -/
theorem config_fails_only_without_sitekey_witness :
    (∀ s a, extract_recaptcha_config actionlessDoc = RecaptchaResult.ok s a → s ≠ "")
    ∧ (docFindFirst isRecaptchaScriptTag actionlessDoc = none →
        extract_recaptcha_config actionlessDoc = RecaptchaResult.noScript)
    ∧ (∀ scriptTag r1 rest,
        docFindFirst isRecaptchaScriptTag actionlessDoc = some scriptTag →
        splitChar '?' (srcOf scriptTag) = r1 :: rest → rest ≠ [] →
        qsFirst (interStr "?" rest) "sitekey" = "" →
        extract_recaptcha_config actionlessDoc = RecaptchaResult.emptySitekey) :=
  config_fails_only_without_sitekey actionlessDoc

/-- The parser stage ends in success or in the parse-failure outcome. -/
theorem parseStage_outcome (st : St) (t : String) (d : Html) :
    (parseStage st t d).1 = Outcome.success ∨
    (parseStage st t d).1 = Outcome.parseFailed := by
  unfold parseStage
  cases parse_dmv_response_and_save t d with
  | error e =>
    obtain ⟨arts, dump⟩ := e
    exact Or.inr rfl
  | ok arts => exact Or.inl rfl

/-- Classification never produces the fetch-failure outcome. -/
theorem classifyStage_ne_fetchFailed (st : St) (t : String) (d : Html) :
    (classifyStage st t d).1 ≠ Outcome.fetchFailed := by
  unfold classifyStage
  split
  · exact fun h => Outcome.noConfusion h
  · split
    · exact fun h => Outcome.noConfusion h
    · rcases parseStage_outcome
        { st with
          posted := true
          artifacts := st.artifacts ++ ["response.html", "response_info.json"] } t d with
        h | h <;> rw [h] <;> decide

/-! ### C6 — hidden-field extraction -/

/-- A form page without the target form. -/
def docNoForm : Html := Html.tag "[document]" [] [scriptOk]

/-- Environment fetching a page without the target form. -/
def envNoForm : Env := { envOk with formDoc := some docNoForm }

/-- A target form holding a hidden input whose `name` attribute is the
empty string and a hidden input with an upper-case `type` value. -/
def formEdge : Html :=
  Html.tag "form" [("id", "FeeRequestForm")]
    [Html.tag "input" [("type", "hidden"), ("name", ""), ("value", "x")] [],
     Html.tag "input" [("type", "HIDDEN"), ("name", "b"), ("value", "2")] []]

/-- Document wrapping `formEdge`. -/
def docEdge : Html := Html.tag "[document]" [] [formEdge]

/-- C6 counterexample: the empty string is the `name` attribute of a
hidden input under the form, yet the extracted mapping has no binding for
it — the source's `if name:` drops empty names — so the key set does not
equal the set of name attributes of the hidden inputs.  (The mapping
holds only the other input, whose `type="HIDDEN"` matches the select
path's case-insensitive attribute test.) -/
theorem empty_name_hidden_field_counterexample :
    "" ∈ hiddenNameAttrs docEdge ∧
    pyLookup "" (extract_hidden_fields docEdge) = none ∧
    extract_hidden_fields docEdge = [("b", "2")] := by
  refine ⟨?_, ?_, ?_⟩ <;> decide

/-- The keys collected by the extraction loop are exactly the non-empty
`name` attribute values of the selected hidden inputs. -/
theorem mem_hiddenNamed_names (doc : Html) (k : String) :
    k ∈ (hiddenNamed doc).map Prod.fst ↔ (k ≠ "" ∧ k ∈ hiddenNameAttrs doc) := by
  constructor
  · intro hm
    obtain ⟨p, hp, hpk⟩ := List.mem_map.mp hm
    obtain ⟨h, hh, hnv⟩ := List.mem_filterMap.mp hp
    cases h with
    | text s => cases hnv
    | tag nm attrs cs =>
      revert hnv
      simp only [nameValOf]
      cases hg : attrGet attrs "name" with
      | none =>
        intro hnv
        cases hnv
      | some n =>
        dsimp only
        by_cases hne : (n == "") = true
        · rw [if_pos hne]
          intro hnv
          cases hnv
        · rw [if_neg hne]
          intro hnv
          injection hnv with hnv
          subst hnv
          rw [← hpk]
          refine ⟨fun hc => hne (by simp at hc; simp [hc]), ?_⟩
          apply List.mem_filterMap.mpr
          exact ⟨Html.tag nm attrs cs, hh, by simp [hg]⟩
  · rintro ⟨hne, hmem⟩
    obtain ⟨h, hh, hat⟩ := List.mem_filterMap.mp hmem
    cases h with
    | text s => cases hat
    | tag nm attrs cs =>
      have hat2 : attrGet attrs "name" = some k := hat
      apply List.mem_map.mpr
      refine ⟨(k, attrGetD attrs "value" ""), ?_, rfl⟩
      apply List.mem_filterMap.mpr
      refine ⟨Html.tag nm attrs cs, hh, ?_⟩
      simp only [nameValOf, hat2]
      rw [if_neg (fun hc => hne (by simpa using hc))]

/-- C6 (amended): the extracted hidden-field mapping binds exactly the
non-empty `name` attribute values of the hidden inputs under
`form#FeeRequestForm` (values taken verbatim from those inputs; an
empty-string name is dropped by the source's `if name:` guard); when the
form is absent the mapping is empty and the run proceeds (payload
generation still runs and the fetch stage does not fail). -/
theorem hidden_fields_exact (doc : Html) :
    (∀ k, (pyLookup k (extract_hidden_fields doc)).isSome = true ↔
        (k ≠ "" ∧ k ∈ hiddenNameAttrs doc))
    ∧ (∀ k v, pyLookup k (extract_hidden_fields doc) = some v →
        (k, v) ∈ hiddenNamed doc)
    ∧ (docFindAll isTargetForm doc = [] → extract_hidden_fields doc = [])
    ∧ (∀ env, env.formDoc = some doc →
        (run_scrape env).2.hiddenUsed = some (extract_hidden_fields doc) ∧
        "payload.json" ∈ (run_scrape env).2.artifacts ∧
        (run_scrape env).1 ≠ Outcome.fetchFailed) := by
  refine ⟨?_, ?_, ?_, ?_⟩
  · intro k
    rw [show extract_hidden_fields doc = pyAssignAll [] (hiddenNamed doc) from rfl,
      pyLookup_pyAssignAll, ← mem_hiddenNamed_names doc k,
      ← lookupLast_isSome_iff k (hiddenNamed doc)]
    cases h : lookupLast k (hiddenNamed doc) <;> simp [pyLookup]
  · intro k v h
    rw [show extract_hidden_fields doc = pyAssignAll [] (hiddenNamed doc) from rfl,
      pyLookup_pyAssignAll] at h
    revert h
    cases hl : lookupLast k (hiddenNamed doc) with
    | none =>
      intro h
      exact absurd h (by simp [pyLookup])
    | some v2 =>
      intro h
      injection h with h
      rw [← h]
      exact lookupLast_mem k v2 _ hl
  · intro h0
    simp [extract_hidden_fields, hiddenNamed, hiddenInputsOf, h0, pyAssignAll]
  · intro env hf
    simp only [run_scrape, hf]
    obtain ⟨g1, l, g2⟩ := solveStage_fields env
      { st0 with
        artifacts := ["form.html", "hidden_fields.json", "payload.json"]
        hiddenUsed := some (extract_hidden_fields doc) }
      doc (pyAssignAll (extract_hidden_fields doc) env.payload)
    refine ⟨g1.trans rfl, ?_, ?_⟩
    · rw [g2]
      simp
    · rcases solveStage_shape env
          { st0 with
            artifacts := ["form.html", "hidden_fields.json", "payload.json"]
            hiddenUsed := some (extract_hidden_fields doc) }
          doc (pyAssignAll (extract_hidden_fields doc) env.payload) rfl rfl rfl with
        ⟨ho, _, _⟩ | ⟨st2, t, d, _, heq, _, _, _, _⟩
      · rcases ho with h | h <;> rw [h] <;> decide
      · rw [heq]
        exact classifyStage_ne_fetchFailed st2 t d

/-- C6 witness: a page without the target form yields an empty mapping and
the run still reaches payload generation. -/
theorem hidden_fields_exact_witness :
    extract_hidden_fields docNoForm = [] ∧
    ((run_scrape envNoForm).2.hiddenUsed = some (extract_hidden_fields docNoForm) ∧
     "payload.json" ∈ (run_scrape envNoForm).2.artifacts ∧
     (run_scrape envNoForm).1 ≠ Outcome.fetchFailed) :=
  ⟨(hidden_fields_exact docNoForm).2.2.1 rfl,
   (hidden_fields_exact docNoForm).2.2.2 envNoForm rfl⟩

/-! ### C7 — submitted body is the merge of hidden fields, payload, token -/

/-- C7: the submitted body is the hidden-field mapping updated with every
payload binding (payload values win on key collision) and finally the
challenge token stored under the fixed field name
`g-recaptcha-response`. -/
theorem submitted_body_merge (env : Env) (fd : List (String × String))
    (h : (run_scrape env).2.submitted = some fd) :
    ∃ doc tok, env.formDoc = some doc ∧
      (run_scrape env).2.tokenUsed = some tok ∧
      fd = pyInsert (pyAssignAll (extract_hidden_fields doc) env.payload)
        "g-recaptcha-response" tok ∧
      pyLookup "g-recaptcha-response" fd = some tok ∧
      (∀ k, k ≠ "g-recaptcha-response" →
        pyLookup k fd =
          match lookupLast k env.payload with
          | some v => some v
          | none => pyLookup k (extract_hidden_fields doc)) := by
  obtain ⟨doc, tok, hdoc, hhid, htok, hfd⟩ := run_scrape_submitted env fd h
  refine ⟨doc, tok, hdoc, htok, hfd, ?_, ?_⟩
  · rw [hfd, pyLookup_pyInsert]
    simp
  · intro k hk
    have hne : ¬("g-recaptcha-response" = k) := fun hcon => hk hcon.symm
    rw [hfd, pyLookup_pyInsert, if_neg hne, pyLookup_pyAssignAll]

/-- C7 witness: in the successful scenario the submitted body is the
hidden field, the payload binding, and the token field. -/
theorem submitted_body_merge_witness :
    ∃ doc tok, envOk.formDoc = some doc ∧
      (run_scrape envOk).2.tokenUsed = some tok ∧
      [("a", "1"), ("p", "2"), ("g-recaptcha-response", "tok")] =
        pyInsert (pyAssignAll (extract_hidden_fields doc) envOk.payload)
          "g-recaptcha-response" tok ∧
      pyLookup "g-recaptcha-response"
        [("a", "1"), ("p", "2"), ("g-recaptcha-response", "tok")] = some tok ∧
      (∀ k, k ≠ "g-recaptcha-response" →
        pyLookup k [("a", "1"), ("p", "2"), ("g-recaptcha-response", "tok")] =
          match lookupLast k envOk.payload with
          | some v => some v
          | none => pyLookup k (extract_hidden_fields doc)) :=
  submitted_body_merge envOk [("a", "1"), ("p", "2"), ("g-recaptcha-response", "tok")]
    (by decide)

/-! ### C8 — validation-error markers -/

/-- A body containing the error-alert marker and the form legend text. -/
def valBody : String :=
  "<div class=\"alert alert--error\"> x <legend>Calculate New Resident Fees</legend>"

/-- Environment whose response carries both validation markers. -/
def envValidation : Env := { envOk with postResp := some (valBody, detailDoc) }

/-- A body containing both validation markers and the rejection phrase. -/
def valBodyRej : String := valBody ++ " session not verified"

/-- Environment whose response carries the validation markers and the
rejection phrase. -/
def envValRej : Env := { envOk with postResp := some (valBodyRej, detailDoc) }

/-- C8 counterexample: a body containing both validation markers and the
rejection phrase aborts as rejected, not as a validation failure — the
rejection check runs first. -/
theorem validation_markers_rejected_counterexample :
    validationHit valBodyRej = true ∧
    (run_scrape envValRej).2.posted = true ∧
    (run_scrape envValRej).1 = Outcome.rejected ∧
    (run_scrape envValRej).1 ≠ Outcome.validationFailed := by
  refine ⟨?_, ?_, ?_, ?_⟩ <;> decide

/-- C8 (amended): when the run reaches classification and the response
body contains both the error-alert marker and the form legend text but
not the rejection phrase, the run aborts as a validation failure with no
extraction attempted; when the rejection phrase is also present the run
aborts as rejected instead, still with no extraction. -/
theorem validation_aborts_without_extraction (env : Env) (t : String) (d : Html)
    (hp : env.postResp = some (t, d)) (hq : (run_scrape env).2.posted = true)
    (hr : rejectionHit t = false) (hv : validationHit t = true) :
    (run_scrape env).1 = Outcome.validationFailed ∧
    (run_scrape env).2.parsed = false := by
  obtain ⟨st, t0, d0, hp0, heq, hpost, hparse, hdump, harts⟩ := run_scrape_posted env hq
  rw [hp] at hp0
  injection hp0 with hp0
  injection hp0 with het hed
  subst het
  subst hed
  rw [heq]
  obtain ⟨e1, e2⟩ := classifyStage_validation st t d hr hv
  exact ⟨e1, e2.trans hparse⟩

/-- C8 witness: both markers without the rejection phrase yield a
validation failure with no parse. -/
theorem validation_aborts_without_extraction_witness :
    (run_scrape envValidation).1 = Outcome.validationFailed ∧
    (run_scrape envValidation).2.parsed = false :=
  validation_aborts_without_extraction envValidation valBody detailDoc rfl
    (by decide) (by decide) (by decide)

/-! ### C9 — artifacts of a successful run -/

/-- C9 counterexample: a successful run whose summary record set is empty
does not write the summary records file (`run_scrape` completes with only
the detail CSV). -/
theorem success_without_summary_counterexample :
    (run_scrape envOk).1 = Outcome.success ∧
    "summary.csv" ∉ (run_scrape envOk).2.artifacts ∧
    "detailed.csv" ∈ (run_scrape envOk).2.artifacts := by
  refine ⟨?_, ?_, ?_⟩ <;> decide

/-- C9 (amended): on every successful run the seven unconditional
artifacts are persisted and at least one of the two record files is
written, but the summary (resp. detail) records file is written exactly
when its record set is non-empty — not unconditionally. -/
theorem success_artifacts (env : Env)
    (hs : (run_scrape env).1 = Outcome.success) :
    (∀ a, a ∈ (["form.html", "hidden_fields.json", "payload.json",
        "form_data.json", "request_info.json", "response.html",
        "response_info.json"] : List String) →
      a ∈ (run_scrape env).2.artifacts)
    ∧ ("summary.csv" ∈ (run_scrape env).2.artifacts ∨
       "detailed.csv" ∈ (run_scrape env).2.artifacts)
    ∧ (∀ t d, env.postResp = some (t, d) →
        (("summary.csv" ∈ (run_scrape env).2.artifacts ↔
          ¬(extract_summary d).getD [] = []) ∧
         ("detailed.csv" ∈ (run_scrape env).2.artifacts ↔
          ¬(extract_detail d).getD [] = []))) := by
  rcases run_scrape_shape env with ⟨ho, _, _⟩ |
    ⟨st, t0, d0, hp0, heq, hpost, hparse, hdump, harts⟩
  · rw [hs] at ho
    rcases ho with h | h | h <;> exact absurd h (by decide)
  · rw [heq] at hs ⊢
    cases hr : rejectionHit t0 with
    | true =>
      obtain ⟨e1, _⟩ := classifyStage_rejected st t0 d0 hr
      rw [e1] at hs
      exact absurd hs (by decide)
    | false =>
      cases hv : validationHit t0 with
      | true =>
        obtain ⟨e1, _⟩ := classifyStage_validation st t0 d0 hr hv
        rw [e1] at hs
        exact absurd hs (by decide)
      | false =>
        rw [classifyStage_parse st t0 d0 hr hv, harts] at hs ⊢
        obtain ⟨hne, harts2⟩ := parseStage_success _ t0 d0 hs
        refine ⟨?_, ?_, ?_⟩
        · intro a ha
          rw [harts2]
          exact List.mem_append_left _ ha
        · by_cases hS : (extract_summary d0).getD [] = []
          · have hD : ¬(extract_detail d0).getD [] = [] := fun hD => hne ⟨hS, hD⟩
            right
            rw [harts2]
            simp [List.isEmpty_iff, hS, hD]
          · left
            rw [harts2]
            simp [List.isEmpty_iff, hS]
        · intro t d hpd
          rw [hp0] at hpd
          injection hpd with hpd
          injection hpd with het hed
          subst het
          subst hed
          by_cases hS : (extract_summary d0).getD [] = []
          · have hD : ¬(extract_detail d0).getD [] = [] := fun hD => hne ⟨hS, hD⟩
            rw [harts2]
            constructor
            · simp [List.isEmpty_iff, hS, hD]
            · simp [List.isEmpty_iff, hS, hD]
          · by_cases hD : (extract_detail d0).getD [] = []
            · rw [harts2]
              constructor
              · simp [List.isEmpty_iff, hS, hD]
              · simp [List.isEmpty_iff, hS, hD]
            · rw [harts2]
              constructor
              · simp [List.isEmpty_iff, hS, hD]
              · simp [List.isEmpty_iff, hS, hD]

/-- C9 witness: the amended artifact characterization at the
detail-only successful run. -/
theorem success_artifacts_witness :
    (∀ a, a ∈ (["form.html", "hidden_fields.json", "payload.json",
        "form_data.json", "request_info.json", "response.html",
        "response_info.json"] : List String) →
      a ∈ (run_scrape envOk).2.artifacts)
    ∧ ("summary.csv" ∈ (run_scrape envOk).2.artifacts ∨
       "detailed.csv" ∈ (run_scrape envOk).2.artifacts)
    ∧ (∀ t d, envOk.postResp = some (t, d) →
        (("summary.csv" ∈ (run_scrape envOk).2.artifacts ↔
          ¬(extract_summary d).getD [] = []) ∧
         ("detailed.csv" ∈ (run_scrape envOk).2.artifacts ↔
          ¬(extract_detail d).getD [] = []))) :=
  success_artifacts envOk (by decide)

/-! ### C10 — missing query string raises an indexing error -/

/-- A page whose loader script has no query string. -/
def noQueryDoc : Html :=
  Html.tag "[document]" []
    [Html.tag "script" [("src", "recaptchav3.js")] []]

/-- C10: there is an input page containing a loader script reference whose
`src` holds the marker but no `?`, on which configuration extraction hits
the out-of-range indexing path of `src.split("?", 1)[1]` instead of one of
the two designed configuration errors. -/
theorem missing_query_string_index_error :
    ∃ doc scriptTag, docFindFirst isRecaptchaScriptTag doc = some scriptTag ∧
      strContains (srcOf scriptTag) "recaptchav3.js" = true ∧
      strContains (srcOf scriptTag) "?" = false ∧
      extract_recaptcha_config doc = RecaptchaResult.indexError ∧
      RecaptchaResult.indexError ≠ RecaptchaResult.noScript ∧
      RecaptchaResult.indexError ≠ RecaptchaResult.emptySitekey := by
  refine ⟨noQueryDoc, Html.tag "script" [("src", "recaptchav3.js")] [],
    rfl, ?_, ?_, ?_, ?_, ?_⟩ <;> decide
